import Mathlib

/-
Verification of the backend-container control plane: the Jupyter process
supervisor (single-flight start, readiness wait, crash and shutdown
handling), the CORS response filter, the port-addressed reverse proxy and
the request router, embedded shallowly from the TypeScript sources
(sources/server.ts, sources/web/datalab/server.ts,
sources/web/datalab/jupyter.ts and the single-server jupyter variant).
Strings from the sources are embedded as `List Char`; the mutable header
object of a proxied response is embedded as a function from header names
to optional values; the event-loop interleaving of the supervisor is
embedded as a small-step transition relation whose events are the
handlers the sources register.
-/

namespace Cors

/-- Header name written by the response filter. -/
def acaoKey : String := "access-control-allow-origin"

/-- Header name for the credentials flag written by the response filter. -/
def acacKey : String := "access-control-allow-credentials"

/-- Literal value the filter stores in the credentials header. -/
def trueVal : String := "true"

/-- A response header object: a finite string-keyed map, absent keys being `none`. -/
def Headers : Type := String → Option String

/-- Reading `headers[k]`. -/
def getHeader (h : Headers) (k : String) : Option String := h k

/-- Assignment `headers[k] = v`. -/
def setHeader (h : Headers) (k v : String) : Headers :=
  fun q => if q = k then some v else h q

/-- Deletion `delete headers[k]`. -/
def deleteHeader (h : Headers) (k : String) : Headers :=
  fun q => if q = k then none else h q

/-- Condition of jupyter.ts responseHandler lines 244-245: the configured
allow-list is non-empty and contains the request Origin header value
(`indexOf(origin) != -1`; an absent Origin is never found). -/
def originAllowed (allowed : List String) (origin : Option String) : Bool :=
  allowed.length != 0 &&
    (match origin with
     | some o => allowed.contains o
     | none => false)

/-- The proxied-response filter, jupyter.ts lines 242-258 (and the
equivalent single-server variant lines 230-247): on an allow-list match,
set access-control-allow-origin to the request origin and the credentials
header to the string true; otherwise, if the upstream response carries an
access-control-allow-origin header, delete it. -/
def responseHandler (allowed : List String) (origin : Option String)
    (resp : Headers) : Headers :=
  if originAllowed allowed origin then
    match origin with
    | some o => setHeader (setHeader resp acaoKey o) acacKey trueVal
    | none => resp
  else if (getHeader resp acaoKey).isSome then
    deleteHeader resp acaoKey
  else
    resp

end Cors

namespace ReverseProxy

/-- Boolean test that a list begins with the given pattern of characters. -/
def startsWithList : List Char → List Char → Bool
  | [], _ => true
  | _ :: _, [] => false
  | p :: ps, c :: cs => p == c && startsWithList ps cs

/-- Literal marker in front of the port digits. -/
def proxyHead : List Char := ['/', '_', 'p', 'r', 'o', 'x', 'y', '/']

/-- One attempt of the regex new RegExp of the pattern slash _proxy slash
([0-9]+)($|/) at the head of the given character list
(sources/server.ts line 209 / line 290): the literal marker, then a
non-empty greedy run of digits, then either end of input or a slash.
Returns the input remaining after the whole matched span together with the
captured digit group. Backtracking into the digit run cannot help, because
every shorter non-empty digit run is still followed by a digit, so the
greedy-run embedding is exact. -/
def matchAt (s : List Char) : Option (List Char × List Char) :=
  if startsWithList proxyHead s then
    let r := s.drop 8
    let ds := r.takeWhile Char.isDigit
    if ds.isEmpty then none
    else
      match r.drop ds.length with
      | [] => some ([], ds)
      | '/' :: tail => some (tail, ds)
      | _ => none
  else none

/-- Leftmost match of the unanchored regex: remaining input and digit
group of the first position where `matchAt` succeeds. -/
def findMatch : List Char → Option (List Char × List Char)
  | [] => none
  | c :: cs =>
    match matchAt (c :: cs) with
    | some r => some r
    | none => findMatch cs

/-- JavaScript url.replace(regex, empty string): remove the span of the
leftmost match, keep everything else (sources/server.ts line 248 / 323). -/
def replaceFirst : List Char → List Char
  | [] => []
  | c :: cs =>
    match matchAt (c :: cs) with
    | some (tail, _) => tail
    | none => c :: replaceFirst cs

/-- reverseProxy getPort (sources/server.ts lines 217-225 / 297-305):
the captured digit group of the first regex match, null when none. -/
def getPort (url : List Char) : Option (List Char) :=
  (findMatch url).map (fun r => r.2)

/-- Modelled from the spec: util.headerAsString (util.ts is not among the
sources) renders an absent header as the empty string and a string-valued
header as itself. -/
def headerAsString (h : Option (List Char)) : List Char := h.getD []

/-- getRequestPort, the variant without the socket.io fallback
(sources/server.ts lines 311-315): port from the path, or else from the
Referer header value. -/
def getRequestPort (path : List Char) (referer : Option (List Char)) :
    Option (List Char) :=
  match getPort path with
  | some p => some p
  | none => getPort (headerAsString referer)

/-- Path family owned by the socket.io collaborator. -/
def socketIoSeg : List Char :=
  ['/', 's', 'o', 'c', 'k', 'e', 't', '.', 'i', 'o', '/']

/-- getRequestPort, the variant with the socket.io fallback
(sources/server.ts lines 231-240): when neither the path nor the Referer
matches, a path beginning with the socket.io segment yields the configured
socketio port; the empty string (the uninitialised port) stays falsy and
is returned as null. -/
def getRequestPortSio (socketioPort : List Char) (path : List Char)
    (referer : Option (List Char)) : Option (List Char) :=
  match getRequestPort path referer with
  | some p => some p
  | none =>
    if startsWithList socketIoSeg path then
      if socketioPort.isEmpty then none else some socketioPort
    else none

/-- Target prefix of the reverse-proxy forward. -/
def localhostHead : List Char :=
  ['h', 't', 't', 'p', ':', '/', '/', 'l', 'o', 'c', 'a', 'l', 'h', 'o',
   's', 't', ':']

/-- reverseProxy handleRequest (sources/server.ts lines 320-329): rewrite
request.url by deleting the first regex match and aim the proxy at
localhost on the extracted port. Returns the rewritten url and the target. -/
def handleRequest (url : List Char) (port : List Char) :
    List Char × List Char :=
  (replaceFirst url, localhostHead ++ port)

/-- Resolution of a request url against a host-only target: a single slash
separates host and path. -/
def joinSlash (u : List Char) : List Char :=
  match u with
  | '/' :: _ => u
  | _ => '/' :: u

/-- Modelled from the spec: the external http-proxy library resolves the
rewritten request url against the target, so the forwarded absolute url is
the target followed by the rewritten url behind a single slash. -/
def forwardedUrl (url : List Char) (port : List Char) : List Char :=
  let r := handleRequest url port
  r.2 ++ joinSlash r.1

end ReverseProxy

namespace Router

/-- Result of classifying one incoming request, computed fresh per request. -/
inductive RouteDecision
  | socketIo
  | portProxy (port : List Char)
  | jupyter
  | notFound
deriving DecidableEq

/-- Modelled from the spec: sockets.isSocketIoPath (sockets.ts is not among
the sources) recognises the path family owned by the socket-multiplexing
collaborator, the paths beginning with the socket.io segment, the same
convention the reverse-proxy fallback variant uses. -/
def isSocketIoPath (path : List Char) : Bool :=
  ReverseProxy.startsWithList ReverseProxy.socketIoSeg path

/-- Backend-route classification of handleRequest (sources/server.ts lines
82-92): the root path exactly, or one of the fixed route name beginnings. -/
def isJupyterPath (p : List Char) : Bool :=
  p == ['/'] ||
  ReverseProxy.startsWithList (String.toList ("/api")) p ||
  ReverseProxy.startsWithList (String.toList ("/tree")) p ||
  ReverseProxy.startsWithList (String.toList ("/notebooks")) p ||
  ReverseProxy.startsWithList (String.toList ("/nbconvert")) p ||
  ReverseProxy.startsWithList (String.toList ("/nbextensions")) p ||
  ReverseProxy.startsWithList (String.toList ("/files")) p ||
  ReverseProxy.startsWithList (String.toList ("/edit")) p ||
  ReverseProxy.startsWithList (String.toList ("/terminals")) p ||
  ReverseProxy.startsWithList (String.toList ("/sessions")) p ||
  ReverseProxy.startsWithList (String.toList ("/static")) p

/-- Classification performed by uncheckedRequestHandler (sources/server.ts
lines 113-127) followed by handleRequest (lines 73-101): the socket.io
branch first, then any reverse-proxy port match, then the fixed backend
route beginnings, else not-found. The source computes the reverse-proxy
port before the socket.io test, but only consults it after, so the
if-ordering here is the observable one. -/
def uncheckedRoute (path : List Char) (referer : Option (List Char)) :
    RouteDecision :=
  if isSocketIoPath path then RouteDecision.socketIo
  else
    match ReverseProxy.getRequestPort path referer with
    | some p => RouteDecision.portProxy p
    | none =>
      if isJupyterPath path then RouteDecision.jupyter
      else RouteDecision.notFound

/-- Pathname of a request url as url.parse produces it: the characters
before the query or fragment separator. -/
def pathname (u : List Char) : List Char :=
  u.takeWhile (fun c => c != '?' && c != '#')

/-- Reserved tunnel path (sources/server.ts line 130). -/
def httpOverWebSocketPath : List Char :=
  ['/', 'h', 't', 't', 'p', '_', 'o', 'v', 'e', 'r', '_', 'w', 'e', 'b',
   's', 'o', 'c', 'k', 'e', 't']

/-- Upgrade handler of the main server (sources/server.ts lines 132-138):
delegate to the backend proxy exactly when the parsed pathname differs
from the reserved tunnel path. -/
def socketDelegates (url : List Char) : Bool :=
  pathname url != httpOverWebSocketPath

/-- trimBasePath (sources/web/datalab/server.ts lines 167-175): when the
raw url begins with the configured base path, replace that beginning with
a single slash. -/
def trimBasePath (basePath url : List Char) : List Char :=
  if ReverseProxy.startsWithList basePath url then
    '/' :: url.drop basePath.length
  else url

/-- Upgrade handler of the datalab server variant
(sources/web/datalab/server.ts lines 159-165): delegate exactly when the
base-path-trimmed raw url, query string included, differs from the
reserved tunnel path. -/
def socketDelegatesDatalab (basePath url : List Char) : Bool :=
  trimBasePath basePath url != httpOverWebSocketPath

end Router

namespace Jupyter

/-- Outcome delivered to a start callback: none on success, an error code
on failure. -/
abbrev Outcome := Option Nat

/-- Error code of the rejection produced by the readiness wait timing out. -/
def readinessTimeoutErr : Nat := 1

/-- Error code of childProcess.spawn throwing. -/
def spawnThrowErr : Nat := 2

/-- Retry interval of the readiness poll in milliseconds, from the
tcp.waitUntilUsedOnHost call (jupyter.ts line 116). -/
def tcpRetryMs : Nat := 100

/-- Overall readiness window in milliseconds, from the same call. -/
def tcpWindowMs : Nat := 15000

/-- Event-loop state of the single-server supervisor (jupyter variant of
part_000) together with the registration state of its CallbackManager and
an observation log. serverStored is whether the jupyterServer record is
populated; ongoing and waiters belong to the CallbackManager; spawnsStarted
counts childProcess.spawn calls; pollsInFlight counts readiness waits whose
outcome is still pending; childAlive is whether the spawned child has not
exited; delivered logs every callback invocation in order. -/
structure SupState where
  serverStored : Bool
  ongoing : Bool
  waiters : List Nat
  spawnsStarted : Nat
  pollsInFlight : Nat
  childAlive : Bool
  delivered : List (Nat × Outcome)
deriving DecidableEq

/-- State before any request: no record, no registration, nothing spawned. -/
def initState : SupState :=
  { serverStored := false, ongoing := false, waiters := [],
    spawnsStarted := 0, pollsInFlight := 0, childAlive := false,
    delivered := [] }

/-- Modelled from the spec: callbackManager.invokeAllCallbacks
(callbacks.ts is not among the sources) invokes every registered callback
once with the given outcome, in registration order, clears the
registration list and ends the in-flight start, so that a later start call
re-initiates. -/
def invokeAllCallbacks (e : Outcome) (s : SupState) : SupState :=
  { s with delivered := s.delivered ++ s.waiters.map (fun cb => (cb, e)),
           waiters := [], ongoing := false }

/-- Effect of createJupyterServerAtPort up to the readiness wait (part_000
lines 68-113): one childProcess.spawn, the exit handler attached, and the
tcp readiness wait issued. -/
def spawnChild (s : SupState) : SupState :=
  { s with spawnsStarted := s.spawnsStarted + 1, childAlive := true,
           pollsInFlight := s.pollsInFlight + 1 }

/-- The exported start operation (part_000 lines 164-184, startForUser in
jupyter.ts lines 168-189): a populated record answers the callback with
success straight away; an in-flight start parks the callback on the
CallbackManager; otherwise this caller becomes the initiator and runs
createJupyterServer, whose synchronous throw (spawnOk false) is caught and
delivered to the registered callbacks as a failure. -/
def start (spawnOk : Bool) (cb : Nat) (s : SupState) : SupState :=
  if s.serverStored then
    { s with delivered := s.delivered ++ [(cb, none)] }
  else if s.ongoing then
    { s with waiters := s.waiters ++ [cb] }
  else
    let s1 := { s with ongoing := true, waiters := [cb] }
    if spawnOk then spawnChild s1
    else invokeAllCallbacks (some spawnThrowErr) s1

/-- Resolution handler of the readiness wait (part_000 lines 115-119):
store the record, then deliver success to every parked callback. -/
def pollSuccess (s : SupState) : SupState :=
  { invokeAllCallbacks none s with
      serverStored := true, pollsInFlight := s.pollsInFlight - 1 }

/-- Rejection handler of the readiness wait (part_000 lines 120-123): the
record is never stored; deliver the error to every parked callback. -/
def pollTimeout (e : Nat) (s : SupState) : SupState :=
  { invokeAllCallbacks (some e) s with
      pollsInFlight := s.pollsInFlight - 1 }

/-- exitHandler (part_000 lines 74-78, jupyter.ts lines 76-80): on any
exit of the child the record is cleared. Nothing else happens: the
pending readiness wait is a tcp port poll that takes no process handle,
so it is left running. -/
def exitHandler (s : SupState) : SupState :=
  { s with childAlive := false, serverStored := false }

/-- Events the event loop can interleave: any caller may invoke start at
any time; a pending readiness wait may resolve or reject; a live child may
exit. -/
inductive Step : SupState → SupState → Prop
  | stepStart (ok : Bool) (cb : Nat) (s : SupState) : Step s (start ok cb s)
  | stepPollSuccess (s : SupState) :
      0 < s.pollsInFlight → Step s (pollSuccess s)
  | stepPollTimeout (e : Nat) (s : SupState) :
      0 < s.pollsInFlight → Step s (pollTimeout e s)
  | stepExit (s : SupState) : s.childAlive = true → Step s (exitHandler s)

/-- States the supervisor can reach from the fresh state. -/
inductive Reachable : SupState → Prop
  | init : Reachable initState
  | step {s t : SupState} : Reachable s → Step s t → Reachable t

/-- N callers arriving in order, each invoking start with a working spawn. -/
def startMany (cbs : List Nat) (s : SupState) : SupState :=
  cbs.foldl (fun t cb => start true cb t) s

/-- getPort of the single-server variant (part_000 lines 157-159): the
stored record's port, else zero; the request argument is never consulted. -/
def getPortSingle (server : Option Nat) (request : List Char) : Nat :=
  match server with
  | some port => port
  | none => 0

/-- getPort of the keyed variant (jupyter.ts lines 159-163): the record
under the hardcoded anonymous key, else zero; the request argument is
never consulted. -/
def getPort (servers : List (String × Nat)) (request : List Char) : Nat :=
  match servers.find? (fun p => p.1 = "anonymous") with
  | some p => p.2
  | none => 0

/-- Failure surfaced to JavaScript by an uncaught runtime error. -/
inductive JsError
  | typeError
  | killError
deriving DecidableEq

/-- childProcess.kill, which may throw when the process is gone. -/
def kill (killFails : Bool) : Except JsError Unit :=
  if killFails then Except.error JsError.killError else Except.ok ()

/-- Try-catch with an empty catch block around one action. -/
def tryCatchIgnore (r : Except JsError Unit) : Except JsError Unit :=
  Except.ok ()

/-- close of the keyed variant (jupyter.ts lines 201-214): kill each known
child inside try-catch, then clear the whole registry. killFails tells,
per record, whether the kill throws. -/
def closeEach (killFails : Nat → Bool) :
    List (String × Nat) → Except JsError Unit
  | [] => Except.ok ()
  | (_, pid) :: rest => do
    let _ ← tryCatchIgnore (kill (killFails pid))
    closeEach killFails rest

/-- Whole close of the keyed variant: after the loop the registry is the
empty map. -/
def close (killFails : Nat → Bool) (servers : List (String × Nat)) :
    Except JsError (List (String × Nat)) := do
  let _ ← closeEach killFails servers
  Except.ok []

/-- close of the single-server variant (part_000 lines 196-206): the first
statement reads the childProcess property of jupyterServer before any
try-catch, so a missing record raises a TypeError; with a record present
the kill sits inside try-catch and the record is cleared. -/
def closeSingle (killFails : Bool) (server : Option Nat) :
    Except JsError (Option Nat) :=
  match server with
  | none => Except.error JsError.typeError
  | some pid => do
    let _ ← tryCatchIgnore (kill killFails)
    Except.ok none

end Jupyter

/-- A concrete upstream response carrying a wildcard
access-control-allow-origin header, as emitted by the workaround notebook
configuration the sources mention. -/
def respStar : Cors.Headers :=
  fun k => if k = Cors.acaoKey then some ("*") else none

theorem takeWhile_append_of (p : Char → Bool) (l : List Char) (x : Char)
    (xs : List Char) (hl : ∀ c ∈ l, p c = true) (hx : p x = false) :
    List.takeWhile p (l ++ x :: xs) = l := by
  induction l with
  | nil => simp [List.takeWhile, hx]
  | cons a t ih =>
    have ha : p a = true := hl a (by simp)
    simp [List.takeWhile, ha, ih (fun c hc => hl c (by simp [hc]))]

namespace Cors

theorem getHeader_setHeader_same (h : Headers) (k v : String) :
    getHeader (setHeader h k v) k = some v := by
  simp [getHeader, setHeader]

theorem getHeader_setHeader_other (h : Headers) (k v q : String)
    (hne : q ≠ k) : getHeader (setHeader h k v) q = getHeader h q := by
  simp [getHeader, setHeader, hne]

theorem getHeader_deleteHeader_same (h : Headers) (k : String) :
    getHeader (deleteHeader h k) k = none := by
  simp [getHeader, deleteHeader]

theorem originAllowed_of_mem (allowed : List String) (o : String)
    (hm : o ∈ allowed) : originAllowed allowed (some o) = true := by
  cases allowed with
  | nil => cases hm
  | cons a t =>
    simp only [originAllowed, Bool.and_eq_true, bne_iff_ne, ne_eq]
    exact ⟨by simp, by simpa using hm⟩

theorem originAllowed_eq_false (allowed : List String)
    (origin : Option String) (hno : ∀ o, origin = some o → o ∉ allowed) :
    originAllowed allowed origin = false := by
  cases origin with
  | none => simp [originAllowed]
  | some o =>
    have : o ∉ allowed := hno o rfl
    simp [originAllowed, this]

end Cors

/-- C2. For every proxied response and request: an Origin belonging to the
allow-list makes the filter answer with access-control-allow-origin set to
exactly that origin and access-control-allow-credentials set to true;
otherwise (Origin absent or not allowed) the response reaching the client
carries no access-control-allow-origin header at all, whether or not the
upstream response carried one. -/
theorem c2_cors_response_filter (allowed : List String)
    (origin : Option String) (resp : Cors.Headers) :
    (∀ o, origin = some o → o ∈ allowed →
        Cors.getHeader (Cors.responseHandler allowed origin resp)
            Cors.acaoKey = some o ∧
        Cors.getHeader (Cors.responseHandler allowed origin resp)
            Cors.acacKey = some Cors.trueVal) ∧
    ((∀ o, origin = some o → o ∉ allowed) →
        Cors.getHeader (Cors.responseHandler allowed origin resp)
            Cors.acaoKey = none) := by
  constructor
  · rintro o rfl hm
    have hA := Cors.originAllowed_of_mem allowed o hm
    have hk : Cors.acaoKey ≠ Cors.acacKey := by decide
    simp only [Cors.responseHandler, hA, if_true]
    exact ⟨by rw [Cors.getHeader_setHeader_other _ _ _ _ hk,
                  Cors.getHeader_setHeader_same],
           by rw [Cors.getHeader_setHeader_same]⟩
  · intro hno
    have hA := Cors.originAllowed_eq_false allowed origin hno
    simp only [Cors.responseHandler, hA, Bool.false_eq_true, if_false]
    by_cases hup : (Cors.getHeader resp Cors.acaoKey).isSome
    · simp [hup, Cors.getHeader_deleteHeader_same]
    · simp only [hup, if_false]
      exact Option.not_isSome_iff_eq_none.mp hup

/-- Witness for C2 at the spec's own example: allow-list containing only
https colon slash slash a.example, an upstream response with a wildcard
allow-origin header; the allowed origin is echoed with credentials true,
the disallowed origin sees the wildcard stripped. -/
theorem c2_cors_response_filter_witness :
    Cors.getHeader
        (Cors.responseHandler ["https://a.example"]
          (some ("https://a.example")) respStar) Cors.acaoKey
      = some ("https://a.example") ∧
    Cors.getHeader
        (Cors.responseHandler ["https://a.example"]
          (some ("https://a.example")) respStar) Cors.acacKey
      = some Cors.trueVal ∧
    Cors.getHeader
        (Cors.responseHandler ["https://a.example"]
          (some ("https://evil.example")) respStar) Cors.acaoKey
      = none := by
  refine ⟨?_, ?_, ?_⟩
  · exact ((c2_cors_response_filter ["https://a.example"]
      (some ("https://a.example")) respStar).1 _ rfl (by decide)).1
  · exact ((c2_cors_response_filter ["https://a.example"]
      (some ("https://a.example")) respStar).1 _ rfl (by decide)).2
  · exact (c2_cors_response_filter ["https://a.example"]
      (some ("https://evil.example")) respStar).2
      (by intro o ho hm; injection ho with ho; subst ho; revert hm; decide)

/-- C9. getPort is independent of its request argument: against a fixed
registry both variants answer identically for any two requests, every
client shares the record stored under the hardcoded anonymous key, and the
answer is that record's port when it exists and zero otherwise. -/
theorem c9_get_port_request_independent :
    (∀ (servers : List (String × Nat)) (r1 r2 : List Char),
        Jupyter.getPort servers r1 = Jupyter.getPort servers r2) ∧
    (∀ (server : Option Nat) (r1 r2 : List Char),
        Jupyter.getPortSingle server r1 = Jupyter.getPortSingle server r2) ∧
    (∀ r : List Char, Jupyter.getPort [] r = 0) ∧
    (∀ (port : Nat) (rest : List (String × Nat)) (r : List Char),
        Jupyter.getPort (("anonymous", port) :: rest) r = port) ∧
    (∀ (port : Nat) (r : List Char),
        Jupyter.getPortSingle (some port) r = port) ∧
    (∀ r : List Char, Jupyter.getPortSingle none r = 0) := by
  refine ⟨fun servers r1 r2 => rfl, fun server r1 r2 => rfl,
          fun r => rfl, fun port rest r => ?_, fun port r => rfl,
          fun r => rfl⟩
  simp [Jupyter.getPort, List.find?]

theorem closeEach_ok (killFails : Nat → Bool) :
    ∀ servers : List (String × Nat),
      Jupyter.closeEach killFails servers = Except.ok () := by
  intro servers
  induction servers with
  | nil => rfl
  | cons a t ih =>
    obtain ⟨n, pid⟩ := a
    exact ih

/-- C8 evaluation. The keyed close (jupyter.ts) never raises: from every
registry state, with every pattern of kill failures, it returns normally
with the registry cleared. The single-record close (part_000) raises a
TypeError from the Absent state, because it reads the childProcess
property of a null record before its try-catch, and returns normally only
when a record exists. -/
theorem c8_close_total_or_throws :
    (∀ (killFails : Nat → Bool) (servers : List (String × Nat)),
        Jupyter.close killFails servers = Except.ok []) ∧
    (∀ killFails : Bool,
        Jupyter.closeSingle killFails none
          = Except.error Jupyter.JsError.typeError) ∧
    (∀ (killFails : Bool) (pid : Nat),
        Jupyter.closeSingle killFails (some pid) = Except.ok none) := by
  refine ⟨fun killFails servers => ?_, fun killFails => rfl,
          fun killFails pid => rfl⟩
  have h := closeEach_ok killFails servers
  simp only [Jupyter.close, h]
  rfl

namespace ReverseProxy

theorem startsWithList_self_append (p s : List Char) :
    startsWithList p (p ++ s) = true := by
  induction p with
  | nil => rfl
  | cons a t ih => simp [startsWithList, ih]

theorem drop_eight_marker (s : List Char) : (proxyHead ++ s).drop 8 = s := by
  have h : proxyHead.length = 8 := rfl
  rw [← h, List.drop_left]

theorem matchAt_marker (a : Char) (d rest : List Char)
    (hdig : ∀ c ∈ a :: d, c.isDigit = true) :
    matchAt (proxyHead ++ ((a :: d) ++ '/' :: rest)) = some (rest, a :: d) := by
  have hTW : List.takeWhile Char.isDigit ((a :: d) ++ '/' :: rest) = a :: d :=
    takeWhile_append_of _ _ _ _ hdig (by decide)
  have hD : ((a :: d) ++ '/' :: rest).drop (a :: d).length = '/' :: rest :=
    List.drop_left _ _
  simp only [matchAt, startsWithList_self_append, if_true, drop_eight_marker,
             hTW, hD]
  simp

theorem findMatch_marker (a : Char) (d rest : List Char)
    (hdig : ∀ c ∈ a :: d, c.isDigit = true) :
    findMatch (proxyHead ++ ((a :: d) ++ '/' :: rest)) = some (rest, a :: d) := by
  have hM := matchAt_marker a d rest hdig
  simp only [proxyHead, List.cons_append, List.nil_append] at hM ⊢
  simp [findMatch, hM]

theorem replaceFirst_marker (a : Char) (d rest : List Char)
    (hdig : ∀ c ∈ a :: d, c.isDigit = true) :
    replaceFirst (proxyHead ++ ((a :: d) ++ '/' :: rest)) = rest := by
  have hM := matchAt_marker a d rest hdig
  simp only [proxyHead, List.cons_append, List.nil_append] at hM ⊢
  simp [replaceFirst, hM]

theorem getPort_marker (a : Char) (d rest : List Char)
    (hdig : ∀ c ∈ a :: d, c.isDigit = true) :
    getPort (proxyHead ++ ((a :: d) ++ '/' :: rest)) = some (a :: d) := by
  have h := findMatch_marker a d rest hdig
  simp only [List.cons_append] at h ⊢
  simp [getPort, h]

theorem getRequestPort_path (path : List Char) (referer : Option (List Char))
    (tail ds : List Char) (h : findMatch path = some (tail, ds)) :
    getRequestPort path referer = some ds := by
  simp [getRequestPort, getPort, h]

theorem getRequestPort_ref (path r : List Char) (tail ds : List Char)
    (h0 : findMatch path = none) (hm : findMatch r = some (tail, ds)) :
    getRequestPort path (some r) = some ds := by
  simp [getRequestPort, getPort, headerAsString, h0, hm]

theorem getRequestPort_neither (path : List Char)
    (referer : Option (List Char)) (h0 : findMatch path = none)
    (h1 : findMatch (headerAsString referer) = none) :
    getRequestPort path referer = none := by
  simp [getRequestPort, getPort, h0, h1]

end ReverseProxy

/-- C5 counterexample. The request with url slash _proxy slash 8081
question mark x equals 1 is classified as a reverse-proxy request (its
pathname matches the pattern, extracting port 8081), yet the forward
operation removes nothing — the digits are followed by the query
separator, which the regex does not accept — so the forwarded url still
contains the whole proxy segment instead of the segment-stripped url the
claim requires. -/
theorem c5_forward_cex :
    ReverseProxy.getPort (Router.pathname (("/_proxy/8081?x=1").toList))
      = some (("8081").toList) ∧
    ReverseProxy.replaceFirst (("/_proxy/8081?x=1").toList)
      = ("/_proxy/8081?x=1").toList ∧
    ReverseProxy.forwardedUrl (("/_proxy/8081?x=1").toList) (("8081").toList)
      = ("http://localhost:8081/_proxy/8081?x=1").toList ∧
    ¬ ReverseProxy.forwardedUrl (("/_proxy/8081?x=1").toList)
        (("8081").toList)
      = ("http://localhost:8081?x=1").toList := by
  decide

/-- C5 amended. For a url of the shape marker, digits, slash, remainder,
the forward operation removes the whole span marker-digits-slash from the
outbound url, leaving exactly the remainder, aims the proxy at localhost
on the extracted port, and the forwarded absolute url is that target
followed by the remainder behind a single slash; when the digits are
instead followed directly by the query separator nothing is removed (the
counterexample above). -/
theorem c5_forward_amended (a : Char) (d rest : List Char)
    (hdig : ∀ c ∈ a :: d, c.isDigit = true) :
    ReverseProxy.getPort (ReverseProxy.proxyHead ++ ((a :: d) ++ '/' :: rest))
      = some (a :: d) ∧
    ReverseProxy.handleRequest
        (ReverseProxy.proxyHead ++ ((a :: d) ++ '/' :: rest)) (a :: d)
      = (rest, ReverseProxy.localhostHead ++ (a :: d)) ∧
    ReverseProxy.forwardedUrl
        (ReverseProxy.proxyHead ++ ((a :: d) ++ '/' :: rest)) (a :: d)
      = (ReverseProxy.localhostHead ++ (a :: d))
          ++ ReverseProxy.joinSlash rest := by
  have hR := ReverseProxy.replaceFirst_marker a d rest hdig
  simp only [List.cons_append] at hR
  refine ⟨ReverseProxy.getPort_marker a d rest hdig, ?_, ?_⟩
  · simp [ReverseProxy.handleRequest, hR]
  · simp [ReverseProxy.forwardedUrl, ReverseProxy.handleRequest, hR]

/-- Witness for C5 amended at the spec's example: the port segment of
slash _proxy slash 8081 slash foo slash bar is removed and the request is
forwarded to localhost port 8081 with path slash foo slash bar. -/
theorem c5_forward_amended_witness :
    ReverseProxy.forwardedUrl
        (ReverseProxy.proxyHead ++ (('8' :: ['0', '8', '1'])
          ++ '/' :: ("foo/bar").toList)) ('8' :: ['0', '8', '1'])
      = (ReverseProxy.localhostHead ++ ('8' :: ['0', '8', '1']))
          ++ ReverseProxy.joinSlash (("foo/bar").toList) ∧
    ReverseProxy.forwardedUrl (("/_proxy/8081/foo/bar").toList)
        (("8081").toList)
      = ("http://localhost:8081/foo/bar").toList :=
  ⟨(c5_forward_amended '8' ['0', '8', '1'] (("foo/bar").toList)
      (by decide)).2.2,
   by decide⟩

/-- C6 counterexample. In the variant of getRequestPort with the socket.io
fallback (sources/server.ts lines 231-240), a request whose path and
Referer both fail the pattern does not always yield null: a path beginning
with the socket.io segment yields the configured socketio port instead. -/
theorem c6_get_request_port_cex :
    ReverseProxy.findMatch (("/socket.io/x").toList) = none ∧
    ReverseProxy.getRequestPortSio (("8083").toList)
        (("/socket.io/x").toList) none = some (("8083").toList) ∧
    ¬ ReverseProxy.getRequestPortSio (("8083").toList)
        (("/socket.io/x").toList) none = none := by
  decide

/-- C6 amended. Both getRequestPort variants return the digit group of
the first pattern match in the path when one exists, otherwise the digit
group of the first match in the Referer value; when neither matches, the
plain variant returns null, while the socket.io variant returns the
configured socketio port for paths beginning with the socket.io segment
(null when that port is the empty string) and null for all other paths. -/
theorem c6_get_request_port_amended (path : List Char)
    (referer : Option (List Char)) (sio : List Char) :
    (∀ tail ds, ReverseProxy.findMatch path = some (tail, ds) →
        ReverseProxy.getRequestPort path referer = some ds ∧
        ReverseProxy.getRequestPortSio sio path referer = some ds) ∧
    (ReverseProxy.findMatch path = none →
        ∀ r tail ds, referer = some r →
          ReverseProxy.findMatch r = some (tail, ds) →
          ReverseProxy.getRequestPort path referer = some ds ∧
          ReverseProxy.getRequestPortSio sio path referer = some ds) ∧
    (ReverseProxy.findMatch path = none →
        ReverseProxy.findMatch (ReverseProxy.headerAsString referer) = none →
          ReverseProxy.getRequestPort path referer = none ∧
          ReverseProxy.getRequestPortSio sio path referer
            = (if ReverseProxy.startsWithList ReverseProxy.socketIoSeg path
               then (if sio.isEmpty then none else some sio)
               else none)) := by
  refine ⟨?_, ?_, ?_⟩
  · intro tail ds h
    have h2 := ReverseProxy.getRequestPort_path path referer tail ds h
    exact ⟨h2, by simp [ReverseProxy.getRequestPortSio, h2]⟩
  · rintro h0 r tail ds rfl hm
    have h2 := ReverseProxy.getRequestPort_ref path r tail ds h0 hm
    exact ⟨h2, by simp [ReverseProxy.getRequestPortSio, h2]⟩
  · intro h0 h1
    have h2 := ReverseProxy.getRequestPort_neither path referer h0 h1
    exact ⟨h2, by simp [ReverseProxy.getRequestPortSio, h2]⟩

/-- Witness for C6 amended: a path match yields its digit group in both
variants. -/
theorem c6_get_request_port_amended_witness :
    ReverseProxy.getRequestPort (("/_proxy/9/p").toList) none
      = some (("9").toList) ∧
    ReverseProxy.getRequestPortSio (("8083").toList)
        (("/_proxy/9/p").toList) none = some (("9").toList) :=
  (c6_get_request_port_amended (("/_proxy/9/p").toList) none
      (("8083").toList)).1 (("p").toList) (("9").toList) (by decide)

/-- C10 counterexample. A path containing the proxy pattern is not always
routed to the reverse proxy: when the path also begins with the socket.io
segment, the socket.io branch of the router claims it first. -/
theorem c10_unanchored_cex :
    ReverseProxy.getPort (("/socket.io/a/_proxy/123/b").toList)
      = some (("123").toList) ∧
    Router.uncheckedRoute (("/socket.io/a/_proxy/123/b").toList) none
      = Router.RouteDecision.socketIo ∧
    ¬ Router.uncheckedRoute (("/socket.io/a/_proxy/123/b").toList) none
      = Router.RouteDecision.portProxy (("123").toList) := by
  decide

/-- C10 amended. For every request that is not claimed by the socket.io
branch, a pattern match anywhere in the path — or, failing that, anywhere
in the Referer value — routes the request to the reverse proxy with the
matched digits as port, before the backend route beginnings are ever
consulted. -/
theorem c10_unanchored_amended (path : List Char)
    (referer : Option (List Char)) :
    (Router.isSocketIoPath path = false →
        ∀ tail ds, ReverseProxy.findMatch path = some (tail, ds) →
          Router.uncheckedRoute path referer
            = Router.RouteDecision.portProxy ds) ∧
    (Router.isSocketIoPath path = false →
        ReverseProxy.findMatch path = none →
        ∀ r tail ds, referer = some r →
          ReverseProxy.findMatch r = some (tail, ds) →
          Router.uncheckedRoute path referer
            = Router.RouteDecision.portProxy ds) := by
  constructor
  · intro hsio tail ds h
    have h2 := ReverseProxy.getRequestPort_path path referer tail ds h
    simp [Router.uncheckedRoute, hsio, h2]
  · rintro hsio h0 r tail ds rfl hm
    have h2 := ReverseProxy.getRequestPort_ref path r tail ds h0 hm
    simp [Router.uncheckedRoute, hsio, h2]

/-- Witness for C10 amended at the claim's example: the path slash files
slash _proxy slash 123 slash x also matches a backend route beginning, yet
is routed to the reverse proxy on port 123. -/
theorem c10_unanchored_amended_witness :
    Router.isJupyterPath (("/files/_proxy/123/x").toList) = true ∧
    Router.uncheckedRoute (("/files/_proxy/123/x").toList) none
      = Router.RouteDecision.portProxy (("123").toList) :=
  ⟨by decide,
   (c10_unanchored_amended (("/files/_proxy/123/x").toList) none).1
     (by decide) (("x").toList) (("123").toList) (by decide)⟩

namespace Router

theorem trimBasePath_slash (us : List Char) :
    trimBasePath ['/'] ('/' :: us) = '/' :: us := by
  simp [trimBasePath, ReverseProxy.startsWithList]

end Router

/-- C7 counterexample. A websocket upgrade whose url path is the reserved
tunnel path but which carries a query string is delegated to the backend
proxy by the datalab upgrade handler, because that handler compares the
raw url — query string included — against the tunnel path. -/
theorem c7_tunnel_upgrade_cex :
    Router.pathname (("/http_over_websocket?token=abc").toList)
      = Router.httpOverWebSocketPath ∧
    Router.socketDelegatesDatalab ['/']
        (("/http_over_websocket?token=abc").toList) = true ∧
    Router.socketDelegates (("/http_over_websocket?token=abc").toList)
      = false := by
  decide

/-- C7 amended. The main server's upgrade handler compares the parsed
pathname, so the tunnel path with any query string is never delegated and
every other pathname is; the datalab variant compares the raw url after
base-path trimming, so it withholds delegation only for the exact tunnel
path without a query string and delegates the tunnel path whenever a query
string is attached. -/
theorem c7_tunnel_upgrade_amended (q url : List Char) :
    Router.socketDelegates (Router.httpOverWebSocketPath ++ '?' :: q)
      = false ∧
    (Router.pathname url ≠ Router.httpOverWebSocketPath →
        Router.socketDelegates url = true) ∧
    Router.socketDelegatesDatalab ['/']
        (Router.httpOverWebSocketPath ++ '?' :: q) = true ∧
    Router.socketDelegatesDatalab ['/'] Router.httpOverWebSocketPath
      = false := by
  refine ⟨?_, ?_, ?_, by decide⟩
  · have hp : Router.pathname (Router.httpOverWebSocketPath ++ '?' :: q)
        = Router.httpOverWebSocketPath :=
      takeWhile_append_of _ _ _ _ (by decide) (by decide)
    simp [Router.socketDelegates, hp]
  · intro hne
    simp only [Router.socketDelegates, bne_iff_ne, ne_eq, decide_eq_true_eq]
    exact hne
  · simp only [Router.socketDelegatesDatalab, Router.httpOverWebSocketPath,
               List.cons_append]
    rw [Router.trimBasePath_slash]
    simp [bne_iff_ne]

/-- Witness for C7 amended at a concrete query string and a concrete
non-tunnel pathname. -/
theorem c7_tunnel_upgrade_amended_witness :
    Router.socketDelegates
        (Router.httpOverWebSocketPath ++ '?' :: ("token=abc").toList)
      = false ∧
    Router.socketDelegates (("/api/kernels").toList) = true ∧
    Router.socketDelegatesDatalab ['/']
        (Router.httpOverWebSocketPath ++ '?' :: ("token=abc").toList)
      = true ∧
    Router.socketDelegatesDatalab ['/'] Router.httpOverWebSocketPath
      = false := by
  have h := c7_tunnel_upgrade_amended (("token=abc").toList)
    (("/api/kernels").toList)
  exact ⟨h.1, h.2.1 (by decide), h.2.2.1, h.2.2.2⟩

namespace Jupyter

theorem startMany_nil (s : SupState) : startMany [] s = s := rfl

theorem startMany_cons (c : Nat) (cs : List Nat) (s : SupState) :
    startMany (c :: cs) s = startMany cs (start true c s) := rfl

theorem start_ongoing (ok : Bool) (cb : Nat) (s : SupState)
    (h1 : s.serverStored = false) (h2 : s.ongoing = true) :
    start ok cb s = { s with waiters := s.waiters ++ [cb] } := by
  simp [start, h1, h2]

theorem startMany_parks (cbs : List Nat) :
    ∀ s : SupState, s.serverStored = false → s.ongoing = true →
      startMany cbs s = { s with waiters := s.waiters ++ cbs } := by
  induction cbs with
  | nil => intro s h1 h2; simp [startMany_nil]
  | cons c cs ih =>
    intro s h1 h2
    rw [startMany_cons, start_ongoing true c s h1 h2,
        ih { s with waiters := s.waiters ++ [c] } h1 h2]
    simp

theorem start_initState (c : Nat) :
    start true c initState
      = { serverStored := false, ongoing := true, waiters := [c],
          spawnsStarted := 1, pollsInFlight := 1, childAlive := true,
          delivered := [] } := rfl

theorem startMany_initState (c : Nat) (cs : List Nat) :
    startMany (c :: cs) initState
      = { serverStored := false, ongoing := true, waiters := c :: cs,
          spawnsStarted := 1, pollsInFlight := 1, childAlive := true,
          delivered := [] } := by
  rw [startMany_cons, start_initState,
      startMany_parks cs _ rfl rfl]
  rfl

theorem polls_invariant_step (t u : SupState) (hst : Step t u)
    (ih1 : t.pollsInFlight ≤ 1)
    (ih2 : t.ongoing = false → t.pollsInFlight = 0) :
    u.pollsInFlight ≤ 1 ∧ (u.ongoing = false → u.pollsInFlight = 0) := by
  cases hst with
  | stepStart ok cb =>
    cases hS : t.serverStored with
    | true => simpa [start, hS] using And.intro ih1 ih2
    | false =>
      cases hO : t.ongoing with
      | true =>
        refine ⟨by simpa [start, hS, hO] using ih1,
                by simp [start, hS, hO]⟩
      | false =>
        have h0 : t.pollsInFlight = 0 := ih2 hO
        cases ok with
        | true =>
          refine ⟨?_, ?_⟩ <;> simp [start, hS, hO, spawnChild, h0]
        | false =>
          refine ⟨?_, ?_⟩ <;>
            simp [start, hS, hO, invokeAllCallbacks, h0]
  | stepPollSuccess hp =>
    refine ⟨?_, ?_⟩ <;> simp [pollSuccess, invokeAllCallbacks] <;> omega
  | stepPollTimeout e hp =>
    refine ⟨?_, ?_⟩ <;> simp [pollTimeout, invokeAllCallbacks] <;> omega
  | stepExit hc =>
    exact ⟨by simpa [exitHandler] using ih1,
           by simpa [exitHandler] using ih2⟩

theorem polls_invariant : ∀ s : SupState, Reachable s →
    s.pollsInFlight ≤ 1 ∧ (s.ongoing = false → s.pollsInFlight = 0) := by
  intro s h
  induction h with
  | init => exact ⟨by decide, fun _ => rfl⟩
  | step hr hst ih => exact polls_invariant_step _ _ hst ih.1 ih.2

end Jupyter

/-- C1. When N callers invoke start in any order before the backend is
ready, starting from the fresh state: exactly one spawn happens, all N
callbacks are parked in registration order, and the single completion
event delivers the identical outcome to all of them in registration order
— success to all, or the same error to all; moreover no reachable state of
the supervisor ever has more than one readiness wait (hence spawn attempt)
in flight. -/
theorem c1_single_flight_start (cbs : List Nat) (h : cbs ≠ []) :
    (Jupyter.startMany cbs Jupyter.initState).spawnsStarted = 1 ∧
    (Jupyter.startMany cbs Jupyter.initState).waiters = cbs ∧
    (Jupyter.startMany cbs Jupyter.initState).serverStored = false ∧
    (Jupyter.pollSuccess
        (Jupyter.startMany cbs Jupyter.initState)).delivered
      = cbs.map (fun cb => (cb, (none : Jupyter.Outcome))) ∧
    (∀ e, (Jupyter.pollTimeout e
        (Jupyter.startMany cbs Jupyter.initState)).delivered
      = cbs.map (fun cb => (cb, (some e : Jupyter.Outcome)))) ∧
    (∀ s, Jupyter.Reachable s → s.pollsInFlight ≤ 1) := by
  obtain ⟨c, cs, rfl⟩ := List.exists_cons_of_ne_nil h
  rw [Jupyter.startMany_initState]
  refine ⟨rfl, rfl, rfl, ?_, ?_, ?_⟩
  · simp [Jupyter.pollSuccess, Jupyter.invokeAllCallbacks]
  · intro e
    simp [Jupyter.pollTimeout, Jupyter.invokeAllCallbacks]
  · intro s hs
    exact (Jupyter.polls_invariant s hs).1

/-- Witness for C1 with three concurrent callers. -/
theorem c1_single_flight_start_witness :
    ([0, 1, 2] : List Nat) ≠ [] ∧
    (Jupyter.startMany [0, 1, 2] Jupyter.initState).spawnsStarted = 1 ∧
    (Jupyter.startMany [0, 1, 2] Jupyter.initState).waiters = [0, 1, 2] ∧
    (Jupyter.pollSuccess
        (Jupyter.startMany [0, 1, 2] Jupyter.initState)).delivered
      = [(0, (none : Jupyter.Outcome)), (1, none), (2, none)] ∧
    (Jupyter.pollTimeout 7
        (Jupyter.startMany [0, 1, 2] Jupyter.initState)).delivered
      = [(0, (some 7 : Jupyter.Outcome)), (1, some 7), (2, some 7)] := by
  have h := c1_single_flight_start [0, 1, 2] (by decide)
  exact ⟨by decide, h.1, h.2.1, by simpa using h.2.2.2.1,
         by simpa using h.2.2.2.2.1 7⟩

/-- C3. When the readiness wait rejects (the port never became reachable
within the window of 15000 milliseconds polled every 100 milliseconds),
every parked callback receives that same failure, the record is never
stored and the registration state is fully reset, and a subsequent start
call performs a brand-new spawn — it neither returns a cached failure nor
delivers anything immediately. -/
theorem c3_timeout_resets (cbs : List Nat) (e cb2 : Nat) (h : cbs ≠ []) :
    (Jupyter.pollTimeout e
        (Jupyter.startMany cbs Jupyter.initState)).delivered
      = cbs.map (fun c => (c, (some e : Jupyter.Outcome))) ∧
    (Jupyter.pollTimeout e
        (Jupyter.startMany cbs Jupyter.initState)).serverStored = false ∧
    (Jupyter.pollTimeout e
        (Jupyter.startMany cbs Jupyter.initState)).ongoing = false ∧
    (Jupyter.pollTimeout e
        (Jupyter.startMany cbs Jupyter.initState)).waiters = [] ∧
    (Jupyter.pollTimeout e
        (Jupyter.startMany cbs Jupyter.initState)).pollsInFlight = 0 ∧
    (Jupyter.start true cb2 (Jupyter.pollTimeout e
        (Jupyter.startMany cbs Jupyter.initState))).spawnsStarted
      = (Jupyter.pollTimeout e
          (Jupyter.startMany cbs Jupyter.initState)).spawnsStarted + 1 ∧
    (Jupyter.start true cb2 (Jupyter.pollTimeout e
        (Jupyter.startMany cbs Jupyter.initState))).ongoing = true ∧
    (Jupyter.start true cb2 (Jupyter.pollTimeout e
        (Jupyter.startMany cbs Jupyter.initState))).delivered
      = (Jupyter.pollTimeout e
          (Jupyter.startMany cbs Jupyter.initState)).delivered ∧
    Jupyter.tcpRetryMs = 100 ∧ Jupyter.tcpWindowMs = 15000 := by
  obtain ⟨c, cs, rfl⟩ := List.exists_cons_of_ne_nil h
  rw [Jupyter.startMany_initState]
  refine ⟨?_, rfl, rfl, rfl, rfl, ?_, ?_, ?_, rfl, rfl⟩
  · simp [Jupyter.pollTimeout, Jupyter.invokeAllCallbacks]
  · simp [Jupyter.pollTimeout, Jupyter.invokeAllCallbacks, Jupyter.start,
          Jupyter.spawnChild]
  · simp [Jupyter.pollTimeout, Jupyter.invokeAllCallbacks, Jupyter.start,
          Jupyter.spawnChild]
  · simp [Jupyter.pollTimeout, Jupyter.invokeAllCallbacks, Jupyter.start,
          Jupyter.spawnChild]

/-- Witness for C3 with one parked caller and a later retry. -/
theorem c3_timeout_resets_witness :
    (Jupyter.pollTimeout 7
        (Jupyter.startMany [5] Jupyter.initState)).delivered
      = [(5, (some 7 : Jupyter.Outcome))] ∧
    (Jupyter.pollTimeout 7
        (Jupyter.startMany [5] Jupyter.initState)).serverStored = false ∧
    (Jupyter.start true 6 (Jupyter.pollTimeout 7
        (Jupyter.startMany [5] Jupyter.initState))).spawnsStarted
      = (Jupyter.pollTimeout 7
          (Jupyter.startMany [5] Jupyter.initState)).spawnsStarted + 1 := by
  have h := c3_timeout_resets [5] 7 6 (by decide)
  exact ⟨by simpa using h.1, h.2.1, h.2.2.2.2.2.1⟩

/-- C4 counterexample. The child exits while the supervisor is still
Starting: one readiness wait is in flight, one caller is parked, the
record is not stored. After the exit handler runs, the readiness wait is
still in flight and nothing has been delivered — the wait did not observe
the failure and did not terminate, contradicting the claim. -/
theorem c4_exit_during_starting_cex :
    (Jupyter.start true 0 Jupyter.initState).pollsInFlight = 1 ∧
    (Jupyter.start true 0 Jupyter.initState).serverStored = false ∧
    (Jupyter.exitHandler
        (Jupyter.start true 0 Jupyter.initState)).pollsInFlight = 1 ∧
    ¬ (Jupyter.exitHandler
        (Jupyter.start true 0 Jupyter.initState)).pollsInFlight = 0 ∧
    (Jupyter.exitHandler
        (Jupyter.start true 0 Jupyter.initState)).delivered = [] ∧
    (Jupyter.exitHandler
        (Jupyter.start true 0 Jupyter.initState)).waiters = [0] := by
  decide

/-- C4 amended. When the child exits while the state is still Starting,
the exit handler clears the record (a no-op there, the record having never
been stored) and discards nothing else: the readiness wait does not
observe the exit and keeps polling, the callers stay parked, and only the
eventual timeout rejection delivers the failure to every parked callback. -/
theorem c4_exit_during_starting_amended (cbs : List Nat) (e : Nat)
    (h : cbs ≠ []) :
    (Jupyter.exitHandler
        (Jupyter.startMany cbs Jupyter.initState)).serverStored = false ∧
    (Jupyter.exitHandler
        (Jupyter.startMany cbs Jupyter.initState)).childAlive = false ∧
    (Jupyter.exitHandler
        (Jupyter.startMany cbs Jupyter.initState)).pollsInFlight
      = (Jupyter.startMany cbs Jupyter.initState).pollsInFlight ∧
    (Jupyter.exitHandler
        (Jupyter.startMany cbs Jupyter.initState)).pollsInFlight = 1 ∧
    (Jupyter.exitHandler
        (Jupyter.startMany cbs Jupyter.initState)).waiters = cbs ∧
    (Jupyter.exitHandler
        (Jupyter.startMany cbs Jupyter.initState)).delivered = [] ∧
    (Jupyter.pollTimeout e (Jupyter.exitHandler
        (Jupyter.startMany cbs Jupyter.initState))).delivered
      = cbs.map (fun c => (c, (some e : Jupyter.Outcome))) := by
  obtain ⟨c, cs, rfl⟩ := List.exists_cons_of_ne_nil h
  rw [Jupyter.startMany_initState]
  refine ⟨rfl, rfl, rfl, rfl, rfl, rfl, ?_⟩
  simp [Jupyter.exitHandler, Jupyter.pollTimeout, Jupyter.invokeAllCallbacks]

/-- Witness for C4 amended with two parked callers. -/
theorem c4_exit_during_starting_amended_witness :
    (Jupyter.exitHandler
        (Jupyter.startMany [3, 4] Jupyter.initState)).pollsInFlight = 1 ∧
    (Jupyter.pollTimeout 9 (Jupyter.exitHandler
        (Jupyter.startMany [3, 4] Jupyter.initState))).delivered
      = [(3, (some 9 : Jupyter.Outcome)), (4, some 9)] := by
  have h := c4_exit_during_starting_amended [3, 4] 9 (by decide)
  exact ⟨h.2.2.2.1, by simpa using h.2.2.2.2.2.2⟩

